import Mathlib

/-!
Shallow embedding of the kitchen-display UI in `src/app/page.tsx`.

Statuses are plain strings, as in the JavaScript source; the three expected
values are "pending", "preparing" and "completed".  Non-deterministic ambient
inputs of the source (`crypto.randomUUID()`, `Date.now()`) are modelled as
explicit arguments.  React specifics are modelled as follows:

* `useEffect(..., [])` runs once after mount; every variable it closes over is
  the value from the first render.  The SSE `onmessage` handler therefore sees
  the mount-time `orders` array (the initial empty store) forever; the
  functional updater `setOrders(prev => ...)` does see the current store.
  `handleSSE` takes the mount-time store as a separate argument.
* `useMemo(f, deps)` recomputes `f` only when `deps` change.  `pendingOrders`
  and `activeOrders` depend on `[orders]`, so they are functions of the current
  store; `completedOrders` has an empty dependency list, so it is the value
  computed at the first render (from the initial empty store) for the whole
  session, modelled by `completedOrdersView`.
* `setTimeout(() => setSelectedOrderId(null), 500)` in `handleUpdateStatus` is
  modelled by returning a "deselect scheduled" flag next to the new state;
  `stepUpdate` is the update followed by the timer elapsing undisturbed.
-/

namespace AiChefUI

/-- Display icons used by `getStatusBadge` (from lucide-react). -/
inductive Icon
  | clock
  | loader
  | checkCircle
  deriving DecidableEq

/-- Recipe payload: `{ meal: string, steps: string[] }`. -/
structure Recipe where
  meal : String
  steps : List String
  deriving DecidableEq

/-- OrderTicket: `{ id, orderNumber, recipe, status, timestamp }`. -/
structure OrderTicket where
  id : String
  orderNumber : Int
  recipe : Recipe
  status : String
  timestamp : Int
  deriving DecidableEq

/-- `createNewTicket(existingOrders, recipeData)`: next order number is
`Math.max(...existingOrders.map(o => o.orderNumber)) + 1` when the list is
non-empty, else 101; id and timestamp come from the ambient environment
(`crypto.randomUUID()`, `Date.now()`), passed here as arguments. -/
def createNewTicket (existingOrders : List OrderTicket) (recipeData : Recipe)
    (freshId : String) (now : Int) : OrderTicket :=
  let nextOrderNumber : Int :=
    match existingOrders with
    | [] => 101
    | o :: rest => (rest.foldl (fun m t => max m t.orderNumber) o.orderNumber) + 1
  { id := freshId
    orderNumber := nextOrderNumber
    recipe := recipeData
    status := "pending"
    timestamp := now }

/-- Result record of `getStatusBadge`. -/
structure StatusBadge where
  className : String
  icon : Icon
  label : String
  deriving DecidableEq

/-- `getStatusBadge(status)`: the switch over the status string, with the
default branch returning the gray "Unknown" badge. -/
def getStatusBadge (status : String) : StatusBadge :=
  if status = "pending" then
    { className := "bg-red-100 text-red-700", icon := .clock, label := "Pending" }
  else if status = "preparing" then
    { className := "bg-yellow-100 text-yellow-700", icon := .loader, label := "In Progress" }
  else if status = "completed" then
    { className := "bg-green-100 text-green-700", icon := .checkCircle, label := "Completed" }
  else
    { className := "bg-gray-100 text-gray-500", icon := .clock, label := "Unknown" }

/-- The component state: `useState([])` for the store and `useState(null)` for
the selected id. -/
structure AppState where
  orders : List OrderTicket
  selectedOrderId : Option String
  deriving DecidableEq

/-- Initial state of the component. -/
def initState : AppState := { orders := [], selectedOrderId := none }

/-- `orders.find(o => o.id === selectedOrderId) || null`; with a null selected
id no string id compares equal, so the result is null. -/
def selectedOrderOf (orders : List OrderTicket) (selId : Option String) :
    Option OrderTicket :=
  match selId with
  | none => none
  | some i => orders.find? (fun o => o.id == i)

/-- The store update inside `handleUpdateStatus`:
`prevOrders.map(order => order.id === id ? { ...order, status: newStatus } : order)`. -/
def updateStatus (orders : List OrderTicket) (id : String) (newStatus : String) :
    List OrderTicket :=
  orders.map (fun order =>
    if order.id = id then { order with status := newStatus } else order)

/-- `handleUpdateStatus(id, newStatus)`: maps the store through `updateStatus`
and, when `newStatus === "completed"`, schedules
`setTimeout(() => setSelectedOrderId(null), 500)`.  The Boolean records
whether that deselection was scheduled. -/
def handleUpdateStatus (st : AppState) (id : String) (newStatus : String) :
    AppState × Bool :=
  ({ st with orders := updateStatus st.orders id newStatus }, newStatus == "completed")

/-- The scheduled timer firing: `setSelectedOrderId(null)`. -/
def applyDeselect (st : AppState) : AppState :=
  { st with selectedOrderId := none }

/-- A status update followed by the 500 ms timer elapsing with nothing else
intervening. -/
def stepUpdate (st : AppState) (id : String) (newStatus : String) : AppState :=
  let r := handleUpdateStatus st id newStatus
  if r.2 then applyDeselect r.1 else r.1

/-- `orders.filter(o => o.status === "pending")`, memoised on `[orders]`. -/
def pendingOrders (orders : List OrderTicket) : List OrderTicket :=
  orders.filter (fun o => o.status == "pending")

/-- `orders.filter(o => o.status === "preparing")`, memoised on `[orders]`. -/
def activeOrders (orders : List OrderTicket) : List OrderTicket :=
  orders.filter (fun o => o.status == "preparing")

/-- The filter inside the `completedOrders` memo:
`orders.filter(o => o.status === "completed")`. -/
def completedOrders (orders : List OrderTicket) : List OrderTicket :=
  orders.filter (fun o => o.status == "completed")

/-- The store at the first render, when `useMemo` callbacks with an empty
dependency list run: the initial empty store. -/
def mountOrders : List OrderTicket := []

/-- The `completedOrders` memo has an empty dependency list, so its value for
the whole session is the filter of the mount-time store. -/
def completedOrdersView : List OrderTicket := completedOrders mountOrders

/-- The new status dispatched by the toggle button:
`order.status === "pending" ? "preparing" : "pending"`. -/
def toggleTarget (status : String) : String :=
  if status = "pending" then "preparing" else "pending"

/-- A dispatch `(id, newStatus)` offered by the UI in state `st`: the detail
view shows the selected order, both action buttons are rendered only when its
status is not "completed", the toggle button sends `toggleTarget` of its
status, and the mark-complete button sends "completed". -/
def uiDispatch (st : AppState) (id : String) (newStatus : String) : Prop :=
  ∃ o, selectedOrderOf st.orders st.selectedOrderId = some o ∧
    o.status ≠ "completed" ∧ id = o.id ∧
    (newStatus = toggleTarget o.status ∨ newStatus = "completed")

/-- An incoming SSE event: either `JSON.parse(event.data)` throws, or it
yields `null` (so that `data.meal` throws), or it yields an object whose
`meal` field may be absent. -/
inductive StreamEvent
  | invalid
  | nullPayload
  | payload (meal : Option String) (steps : List String)
  deriving DecidableEq

/-- JavaScript truthiness of `data.meal`: present and not the empty string. -/
def jsTruthy (s : Option String) : Bool :=
  match s with
  | some m => !(m == "")
  | none => false

/-- The `onmessage` handler.  `ordersAtMount` is the `orders` variable the
effect closure captured at mount.  Returns the next state and the console
lines emitted: a parse failure (or `data.meal` throwing on `null`) is caught
and logged via `console.error`; otherwise `console.log("meal: ", data.meal)`
always runs, and when `data && data.meal` is truthy a ticket built from the
mount-time store is appended (via the functional updater) and selected. -/
def handleSSE (ordersAtMount : List OrderTicket) (st : AppState)
    (ev : StreamEvent) (freshId : String) (now : Int) :
    AppState × List String :=
  match ev with
  | .invalid => (st, ["Failed to parse SSE message:"])
  | .nullPayload => (st, ["Failed to parse SSE message:"])
  | .payload meal steps =>
    let mealLog := "meal: " ++ (match meal with | some m => m | none => "undefined")
    if jsTruthy meal then
      let data : Recipe := { meal := meal.getD "", steps := steps }
      let newTicket := createNewTicket ordersAtMount data freshId now
      ({ orders := st.orders ++ [newTicket], selectedOrderId := some newTicket.id },
       [mealLog, "newTicket: ", "orders: "])
    else
      (st, [mealLog])

/-- Processing a list of stream events (each with its ambient fresh id and
timestamp) against a fixed mount-time snapshot of the store. -/
def runStream (ordersAtMount : List OrderTicket) :
    AppState → List (StreamEvent × String × Int) → AppState
  | st, [] => st
  | st, (ev, fid, now) :: rest =>
    runStream ordersAtMount (handleSSE ordersAtMount st ev fid now).1 rest

/-- A whole session: the component mounts with the empty store and the effect
captures it, then the events arrive. -/
def runSession (events : List (StreamEvent × String × Int)) : AppState :=
  runStream initState.orders initState events

/-! Sample tickets used by concrete witnesses. -/

/-- A sample pending ticket. -/
def paniniTicket : OrderTicket :=
  { id := "a", orderNumber := 101
    recipe := { meal := "Panini", steps := ["Toast bread", "Add filling"] }
    status := "pending", timestamp := 0 }

/-- A sample completed ticket. -/
def soupTicket : OrderTicket :=
  { id := "b", orderNumber := 102
    recipe := { meal := "Soup", steps := ["Boil"] }
    status := "completed", timestamp := 1 }

/-! Helper lemmas shared by the claim theorems. -/

/-- The orders component of `stepUpdate` is `updateStatus` in both branches.  -/
theorem stepUpdate_orders (st : AppState) (id ns : String) :
    (stepUpdate st id ns).orders = updateStatus st.orders id ns := by
  simp only [stepUpdate, handleUpdateStatus, applyDeselect]
  split <;> rfl

/-- `updateStatus` leaves the list of ids untouched. -/
theorem updateStatus_map_id (orders : List OrderTicket) (id ns : String) :
    (updateStatus orders id ns).map (fun o => o.id) = orders.map (fun o => o.id) := by
  unfold updateStatus
  rw [List.map_map]
  refine List.map_congr_left fun a _ => ?_
  by_cases h : a.id = id <;> simp [Function.comp, h]

/-- With distinct ids, equal ids force equal tickets. -/
theorem ticket_eq_of_id_eq {orders : List OrderTicket} {a b : OrderTicket}
    (hn : (orders.map (fun o => o.id)).Nodup) (ha : a ∈ orders) (hb : b ∈ orders)
    (h : a.id = b.id) : a = b :=
  List.inj_on_of_nodup_map hn ha hb h

/-- With distinct ids, looking up a member's id after `updateStatus` on that
id returns the member with its status replaced. -/
theorem find_updateStatus (orders : List OrderTicket) (t : OrderTicket) (ns : String)
    (hn : (orders.map (fun o => o.id)).Nodup) (ht : t ∈ orders) :
    (updateStatus orders t.id ns).find? (fun o => o.id == t.id)
      = some { t with status := ns } := by
  induction orders with
  | nil => cases ht
  | cons o rest ih =>
    rw [List.map_cons, List.nodup_cons] at hn
    rcases List.mem_cons.mp ht with h | h
    · subst h
      simp only [updateStatus, List.map_cons, if_pos rfl]
      exact List.find?_cons_of_pos _ (by simp)
    · have hne : o.id ≠ t.id := fun he =>
        hn.1 (he ▸ List.mem_map_of_mem (fun o => o.id) h)
      simp only [updateStatus, List.map_cons, if_neg hne]
      rw [List.find?_cons_of_neg _ (by simp [hne])]
      exact ih hn.2 h

/-! Claim theorems. -/

/-- Claim C4: applying the mark-complete update to the same ticket id twice
yields the same store as applying it once, and after one application every
ticket carrying the targeted id has status "completed". -/
theorem c4_mark_complete_idempotent (orders : List OrderTicket) (id : String) :
    updateStatus (updateStatus orders id "completed") id "completed"
      = updateStatus orders id "completed" ∧
    ∀ t ∈ updateStatus orders id "completed", t.id = id → t.status = "completed" := by
  constructor
  · induction orders with
    | nil => rfl
    | cons o rest ih =>
      simp only [updateStatus, List.map_cons, List.cons.injEq] at ih ⊢
      refine ⟨?_, ih⟩
      by_cases h : o.id = id <;> simp [h]
  · intro t ht hid
    simp only [updateStatus, List.mem_map] at ht
    obtain ⟨v, hv, rfl⟩ := ht
    by_cases h : v.id = id
    · rw [if_pos h]
    · rw [if_neg h] at hid ⊢
      exact absurd hid h

/-- Claim C4 witness at a concrete one-ticket store. -/
theorem c4_mark_complete_idempotent_witness :
    updateStatus (updateStatus [paniniTicket] "a" "completed") "a" "completed"
      = updateStatus [paniniTicket] "a" "completed" ∧
    { paniniTicket with status := "completed" }.status = "completed" :=
  ⟨(c4_mark_complete_idempotent [paniniTicket] "a").1,
   (c4_mark_complete_idempotent [paniniTicket] "a").2
     { paniniTicket with status := "completed" } (by decide) (by decide)⟩

/-- Claim C5: `getStatusBadge` is total over arbitrary status strings: the
three recognized statuses map to the red Pending, yellow In Progress, and
green Completed badges, and every other string maps to the gray Unknown
fallback instead of failing. -/
theorem c5_badge_total (s : String) (h1 : s ≠ "pending") (h2 : s ≠ "preparing")
    (h3 : s ≠ "completed") :
    getStatusBadge "pending"
      = { className := "bg-red-100 text-red-700", icon := .clock, label := "Pending" } ∧
    getStatusBadge "preparing"
      = { className := "bg-yellow-100 text-yellow-700", icon := .loader,
          label := "In Progress" } ∧
    getStatusBadge "completed"
      = { className := "bg-green-100 text-green-700", icon := .checkCircle,
          label := "Completed" } ∧
    getStatusBadge s
      = { className := "bg-gray-100 text-gray-500", icon := .clock, label := "Unknown" } := by
  refine ⟨rfl, rfl, rfl, ?_⟩
  unfold getStatusBadge
  rw [if_neg h1, if_neg h2, if_neg h3]

/-- Claim C5 witness at the unrecognized status string "burnt". -/
theorem c5_badge_total_witness :
    getStatusBadge "burnt"
      = { className := "bg-gray-100 text-gray-500", icon := .clock, label := "Unknown" } :=
  (c5_badge_total "burnt" (by decide) (by decide) (by decide)).2.2.2

/-- Claim C9: when the selected id resolves to no ticket of the store
(including when no id is selected at all) the derived selected order is none,
and the initial selection is none. -/
theorem c9_selection_default (orders : List OrderTicket) (sel : Option String)
    (h : ∀ t ∈ orders, some t.id ≠ sel) :
    selectedOrderOf orders sel = none ∧ initState.selectedOrderId = none := by
  refine ⟨?_, rfl⟩
  match sel with
  | none => rfl
  | some i =>
    simp only [selectedOrderOf]
    rw [List.find?_eq_none]
    intro t ht
    simp only [beq_iff_eq]
    exact fun he => h t ht (by rw [he])

/-- Claim C9 witness: a store holding one ticket and a selected id matching
none of its tickets. -/
theorem c9_selection_default_witness :
    selectedOrderOf [paniniTicket] (some "ghost") = none ∧
    initState.selectedOrderId = none :=
  c9_selection_default [paniniTicket] (some "ghost") (by decide)

/-- Claim C10: the status update preserves length and order, maps each slot
either to the identical ticket (id differs from the target) or to the same
ticket with only its status replaced, and is the identity when no ticket
carries the target id. -/
theorem c10_update_frame (orders : List OrderTicket) (id ns : String) :
    (updateStatus orders id ns).length = orders.length ∧
    (∀ i : Nat, (updateStatus orders id ns)[i]?
      = (orders[i]?).map (fun o => if o.id = id then { o with status := ns } else o)) ∧
    ((∀ t ∈ orders, t.id ≠ id) → updateStatus orders id ns = orders) := by
  refine ⟨List.length_map _ _, fun i => List.getElem?_map _ _ _, ?_⟩
  intro h
  unfold updateStatus
  conv_rhs => rw [← List.map_id orders]
  exact List.map_congr_left fun a ha => by rw [if_neg (h a ha)]; rfl

/-- Claim C10 witness: an update whose target id is absent from the store
leaves it exactly unchanged, with length and slots preserved. -/
theorem c10_update_frame_witness :
    (updateStatus [paniniTicket] "zzz" "completed").length = 1 ∧
    updateStatus [paniniTicket] "zzz" "completed" = [paniniTicket] :=
  ⟨(c10_update_frame [paniniTicket] "zzz" "completed").1,
   (c10_update_frame [paniniTicket] "zzz" "completed").2.2 (by decide)⟩

/-- Claim C3: completed is terminal under the UI: any dispatch the detail
view offers targets an id different from a completed ticket's id, and after
the dispatch (timer included) every ticket carrying the completed ticket's id
still has status "completed". -/
theorem c3_completed_terminal (st : AppState) (t : OrderTicket) (id ns : String)
    (hn : (st.orders.map (fun o => o.id)).Nodup) (ht : t ∈ st.orders)
    (hc : t.status = "completed") (hd : uiDispatch st id ns) :
    id ≠ t.id ∧
    ∀ u ∈ (stepUpdate st id ns).orders, u.id = t.id → u.status = "completed" := by
  obtain ⟨o, hsel, hoc, hid, -⟩ := hd
  have ho : o ∈ st.orders := by
    unfold selectedOrderOf at hsel
    match hs : st.selectedOrderId with
    | none => rw [hs] at hsel; cases hsel
    | some i => rw [hs] at hsel; exact List.mem_of_find?_eq_some hsel
  have hne : id ≠ t.id := fun he => hoc (by
    have heq : o = t := ticket_eq_of_id_eq hn ho ht (hid.symm.trans he)
    rw [heq, hc])
  refine ⟨hne, ?_⟩
  intro u hu hut
  rw [stepUpdate_orders] at hu
  simp only [updateStatus, List.mem_map] at hu
  obtain ⟨v, hv, rfl⟩ := hu
  by_cases h : v.id = id
  · rw [if_pos h] at hut
    exact absurd (h.symm.trans (by simpa using hut)) hne
  · rw [if_neg h] at hut ⊢
    have heq : v = t := ticket_eq_of_id_eq hn hv ht hut
    rw [heq, hc]

/-- The two-ticket state used by the C3 witness: the completed soup ticket in
the store, the pending panini ticket selected. -/
def mixedState : AppState :=
  { orders := [soupTicket, paniniTicket], selectedOrderId := some "a" }

/-- Claim C3 witness: in `mixedState` the only dispatches available aim at
the panini ticket, and the soup ticket stays completed after one of them. -/
theorem c3_completed_terminal_witness :
    ("a" : String) ≠ "b" ∧
    ∀ u ∈ (stepUpdate mixedState "a" "preparing").orders,
      u.id = "b" → u.status = "completed" :=
  c3_completed_terminal mixedState
    soupTicket "a" "preparing" (by decide) (by decide) (by decide)
    ⟨paniniTicket, by decide, by decide, by decide, Or.inl (by decide)⟩

/-- Claim C8: from a pending ticket, the start-cooking dispatch
(`toggleTarget "pending" = "preparing"`) sets its status to "preparing", and
the subsequent pause dispatch (`toggleTarget "preparing" = "pending"`) sets
it back to "pending". -/
theorem c8_toggle_round_trip (orders : List OrderTicket) (t : OrderTicket)
    (hn : (orders.map (fun o => o.id)).Nodup) (ht : t ∈ orders)
    (hp : t.status = "pending") :
    (updateStatus orders t.id (toggleTarget t.status)).find? (fun o => o.id == t.id)
      = some { t with status := "preparing" } ∧
    (updateStatus (updateStatus orders t.id (toggleTarget t.status)) t.id
        (toggleTarget "preparing")).find? (fun o => o.id == t.id)
      = some { t with status := "pending" } := by
  have h1 : toggleTarget t.status = "preparing" := by rw [hp]; rfl
  rw [h1]
  have hfind := find_updateStatus orders t "preparing" hn ht
  refine ⟨hfind, ?_⟩
  have hn' : ((updateStatus orders t.id "preparing").map (fun o => o.id)).Nodup := by
    rw [updateStatus_map_id]; exact hn
  have ht' : { t with status := "preparing" } ∈ updateStatus orders t.id "preparing" :=
    List.mem_of_find?_eq_some hfind
  have h2 := find_updateStatus (updateStatus orders t.id "preparing")
    { t with status := "preparing" } "pending" hn' ht'
  exact h2

/-- Claim C8 witness at a concrete one-ticket store. -/
theorem c8_toggle_round_trip_witness :
    (updateStatus [paniniTicket] "a" "preparing").find? (fun o => o.id == "a")
      = some { paniniTicket with status := "preparing" } ∧
    (updateStatus (updateStatus [paniniTicket] "a" "preparing") "a"
        "pending").find? (fun o => o.id == "a")
      = some { paniniTicket with status := "pending" } :=
  c8_toggle_round_trip [paniniTicket] paniniTicket (by decide) (by decide) rfl

/-- Claim C6: a stream event that fails to decode, or whose parsed data is
null, or lacks the meal field, leaves the state unchanged — no ticket is
created, the selection is untouched — and emits at least one console
diagnostic line. -/
theorem c6_malformed_dropped (mount : List OrderTicket) (st : AppState)
    (ev : StreamEvent) (fid : String) (now : Int)
    (h : ev = .invalid ∨ ev = .nullPayload ∨ ∃ steps, ev = .payload none steps) :
    (handleSSE mount st ev fid now).1 = st ∧ (handleSSE mount st ev fid now).2 ≠ [] := by
  rcases h with rfl | rfl | ⟨steps, rfl⟩
  · exact ⟨rfl, by simp [handleSSE]⟩
  · exact ⟨rfl, by simp [handleSSE]⟩
  · exact ⟨rfl, by simp [handleSSE, jsTruthy]⟩

/-- Claim C6 witness: a payload lacking the meal field is dropped with a log
line and the state is unchanged. -/
theorem c6_malformed_dropped_witness :
    (handleSSE [] initState (.payload none ["Toast bread"]) "id-1" 0).1 = initState ∧
    (handleSSE [] initState (.payload none ["Toast bread"]) "id-1" 0).2 ≠ [] :=
  c6_malformed_dropped [] initState (.payload none ["Toast bread"]) "id-1" 0
    (Or.inr (Or.inr ⟨["Toast bread"], rfl⟩))

/-- Claim C7 as stated fails on the code: completing ticket "b" while ticket
"a" is selected still clears the selection once the 500 ms timer fires,
whereas the claim requires the selection to remain `some "a"` when the
completed ticket is not the selected one. -/
theorem c7_counterexample :
    (stepUpdate { orders := [paniniTicket, soupTicket], selectedOrderId := some "a" }
        "b" "completed").selectedOrderId = none ∧
    (some "a" : Option String) ≠ none := by decide

/-- Claim C7 (amended): on a status update whose new status is "completed"
the selection is cleared after the fixed delay regardless of which ticket was
targeted, and an update to any other status leaves the selection unchanged. -/
theorem c7_deselect_on_complete (st : AppState) (id ns : String) :
    (stepUpdate st id "completed").selectedOrderId = none ∧
    (ns ≠ "completed" → (stepUpdate st id ns).selectedOrderId = st.selectedOrderId) := by
  constructor
  · simp [stepUpdate, handleUpdateStatus, applyDeselect]
  · intro h
    simp [stepUpdate, handleUpdateStatus, applyDeselect, h]

/-- Claim C7 (amended) witness at a concrete state: completing clears the
selection, a toggle to "preparing" keeps it. -/
theorem c7_deselect_on_complete_witness :
    (stepUpdate { orders := [paniniTicket], selectedOrderId := some "a" } "a"
        "completed").selectedOrderId = none ∧
    (stepUpdate { orders := [paniniTicket], selectedOrderId := some "a" } "a"
        "preparing").selectedOrderId = some "a" :=
  ⟨(c7_deselect_on_complete { orders := [paniniTicket], selectedOrderId := some "a" }
      "a" "preparing").1,
   (c7_deselect_on_complete { orders := [paniniTicket], selectedOrderId := some "a" }
      "a" "preparing").2 (by decide)⟩

/-- Claim C1 fails on the code: the onmessage closure captures the mount-time
empty store, so after two valid payloads both tickets carry orderNumber 101
instead of 101 then 102; the ticket factory applied to the actual store after
the first event would have produced 102 for the second ticket. -/
theorem c1_stale_closure_numbering :
    (runSession [(.payload (some "Panini") ["Toast bread", "Add filling"], "id-1", 0),
        (.payload (some "Burger") ["Grill"], "id-2", 1)]).orders.map
      (fun t => t.orderNumber) = [101, 101] ∧
    (createNewTicket
        (runSession [(.payload (some "Panini") ["Toast bread", "Add filling"],
          "id-1", 0)]).orders
        { meal := "Burger", steps := ["Grill"] } "id-2" 1).orderNumber = 102 := by
  decide

/-- Claim C2 fails on the code: the completed view is memoised with an empty
dependency list, so for the whole session it is the filter of the mount-time
empty store; with a store holding one completed ticket the three view sizes
sum to 0, not 1, and the ticket appears in none of the three views, although
filtering the current store would find it. -/
theorem c2_frozen_completed_view :
    (pendingOrders [soupTicket]).length + (activeOrders [soupTicket]).length
        + completedOrdersView.length = 0 ∧
    ([soupTicket] : List OrderTicket).length = 1 ∧
    soupTicket ∉ pendingOrders [soupTicket] ∧
    soupTicket ∉ activeOrders [soupTicket] ∧
    soupTicket ∉ completedOrdersView ∧
    completedOrders [soupTicket] = [soupTicket] := by
  decide

end AiChefUI
